import Mathlib

/-!
Shallow embedding of the analytical aggregation engine of the sales data
dashboard (Flask backend `src/backend/app.py` over an SQLite table
`sales_data` produced by `src/data/preprocessing.py`).

Conventions of the embedding:

* One SQLite row of `sales_data` is a `SaleRecord`; the snapshot is a
  `List SaleRecord`.
* SQL `REAL` money values are modelled as `Rat` (exact arithmetic over the
  values appearing in the queries).
* SQL `GROUP BY k` is modelled as: the list of distinct keys in ascending
  order (`groupKeys`), each paired with the sublist of rows having that key
  (`groupOf`).  This matches SQLite, which materialises the groups in
  ascending key order (via an index scan or a temporary B-tree).
* SQL aggregates over a group: `SUM` is the list sum, `COUNT(*)` the list
  length, `AVG` is `SUM / COUNT(*)`, `COUNT(DISTINCT c)` the number of
  distinct values of `c`, `MAX` the maximum.
* `ORDER BY total_sales DESC` leaves the relative order of tied rows
  unspecified in SQL; the engine behaviour (SQLite 3.40, the bundled
  database layout with indexes on COUNTRY / PRODUCTLINE / STATUS but not
  CUSTOMERNAME) is deterministic: for the index-backed group keys tied rows
  come out in ascending key order, for the CUSTOMERNAME grouping tied rows
  come out in descending key order.  The embedding fixes exactly these tie
  orders (`rankRel` with the key or its order-dual).
* A NULL produced by an SQL aggregate over zero rows is an `Option.none`;
  Python `round(None, 2)` raising `TypeError` is an `Except.error`.
-/

/-- A calendar date, the `DATE(ORDERDATE)` part of the stored timestamp. -/
structure OrderDate where
  year : Int
  month : Int
  day : Int
deriving DecidableEq

/-- One row of the `sales_data` table (the columns the queries read).
`customerName` holds the CUSTOMERNAME column when the snapshot schema has
it; whether it exists is tracked separately, as in the code through its
`PRAGMA table_info` check. -/
structure SaleRecord where
  orderNumber : String
  quantityOrdered : Int
  priceEach : Rat
  sales : Rat
  orderDate : OrderDate
  status : String
  qtrId : Int
  monthId : Int
  yearId : Int
  country : String
  productLine : String
  customerName : String
deriving DecidableEq

/-- The `WHERE STATUS != 'Cancelled'` filter used by every aggregation
except the status distribution. -/
def activeRecords (rs : List SaleRecord) : List SaleRecord :=
  rs.filter (fun r => r.status != "Cancelled")

/-- Ascending-key order used to materialise groups, through a projection
`ord` of the key into a linearly ordered type.  SQLite compares TEXT
values bytewise (BINARY collation), which for UTF-8 is the lexicographic
order on the character list, so string keys are ordered through
`String.data`. -/
def keyOrd {κ κ₀ : Type} [LinearOrder κ₀] (ord : κ → κ₀) : κ → κ → Prop :=
  fun a b => ord a ≤ ord b

instance {κ κ₀ : Type} [LinearOrder κ₀] (ord : κ → κ₀) :
    DecidableRel (keyOrd ord) :=
  fun a b => inferInstanceAs (Decidable (ord a ≤ ord b))

instance {κ κ₀ : Type} [LinearOrder κ₀] (ord : κ → κ₀) :
    IsTotal κ (keyOrd ord) where
  total a b := le_total (ord a) (ord b)

instance {κ κ₀ : Type} [LinearOrder κ₀] (ord : κ → κ₀) :
    IsTrans κ (keyOrd ord) where
  trans _ _ _ hab hbc := le_trans hab hbc

/-- SQL `GROUP BY`: the distinct values of the key, in ascending key order
(the order in which SQLite materialises the groups). -/
def groupKeys {κ κ₀ : Type} [DecidableEq κ] [LinearOrder κ₀]
    (key : SaleRecord → κ) (ord : κ → κ₀) (rs : List SaleRecord) : List κ :=
  ((rs.map key).dedup).insertionSort (keyOrd ord)

/-- The rows belonging to one group. -/
def groupOf {κ : Type} [DecidableEq κ] (key : SaleRecord → κ) (k : κ)
    (rs : List SaleRecord) : List SaleRecord :=
  rs.filter (fun r => decide (key r = k))

/-- SQL `SUM(SALES)` over a group. -/
def sumSales (g : List SaleRecord) : Rat :=
  (g.map (·.sales)).sum

/-- SQL `AVG(SALES)` over a group: the sum divided by the number of rows. -/
def avgSales (g : List SaleRecord) : Rat :=
  sumSales g / (g.length : Rat)

/-- SQL `COUNT(DISTINCT ORDERNUMBER)` over a group. -/
def distinctOrders (g : List SaleRecord) : Nat :=
  ((g.map (·.orderNumber)).dedup).length

/-- SQL `SUM(QUANTITYORDERED)` over a group. -/
def sumQuantity (g : List SaleRecord) : Int :=
  (g.map (·.quantityOrdered)).sum

/-- Calendar order on dates, as SQLite compares the stored
`YYYY-MM-DD HH:MM:SS` strings. -/
def dateKey (d : OrderDate) : Lex (Int × Lex (Int × Int)) :=
  toLex (d.year, toLex (d.month, d.day))

/-- The later of two dates. -/
def laterDate (a b : OrderDate) : OrderDate :=
  if dateKey a ≤ dateKey b then b else a

/-- SQL `MAX(ORDERDATE)` over a group (groups are nonempty, so the start value of the fold is never returned for real data). -/
def lastOrderDate (g : List SaleRecord) : OrderDate :=
  (g.map (·.orderDate)).foldl laterDate ⟨0, 0, 0⟩

/-- SQL `ORDER BY total_sales DESC` with the deterministic tie order on the
group key observed for the engine: rows are ranked by strictly larger
metric first, ties by ascending key (instantiate `k` with
`OrderDual.toDual ∘ key` for the groupings whose ties come out in
descending key order). -/
def rankRel {ρ κ : Type} [LinearOrder κ] (m : ρ → Rat) (k : ρ → κ) :
    ρ → ρ → Prop :=
  fun a b => m b < m a ∨ (m a = m b ∧ k a ≤ k b)

instance {ρ κ : Type} [LinearOrder κ] (m : ρ → Rat) (k : ρ → κ) :
    DecidableRel (rankRel m k) :=
  fun a b => inferInstanceAs (Decidable (m b < m a ∨ (m a = m b ∧ k a ≤ k b)))

instance {ρ κ : Type} [LinearOrder κ] (m : ρ → Rat) (k : ρ → κ) :
    IsTotal ρ (rankRel m k) where
  total a b := by
    rcases lt_trichotomy (m a) (m b) with h | h | h
    · exact Or.inr (Or.inl h)
    · rcases le_total (k a) (k b) with hk | hk
      · exact Or.inl (Or.inr ⟨h, hk⟩)
      · exact Or.inr (Or.inr ⟨h.symm, hk⟩)
    · exact Or.inl (Or.inl h)

instance {ρ κ : Type} [LinearOrder κ] (m : ρ → Rat) (k : ρ → κ) :
    IsTrans ρ (rankRel m k) where
  trans a b c hab hbc := by
    rcases hab with h1 | ⟨h1, hk1⟩
    · rcases hbc with h2 | ⟨h2, _⟩
      · exact Or.inl (h2.trans h1)
      · exact Or.inl (h2 ▸ h1)
    · rcases hbc with h2 | ⟨h2, hk2⟩
      · exact Or.inl (h1 ▸ h2)
      · exact Or.inr ⟨h1.trans h2, hk1.trans hk2⟩

/-- One row of `/api/sales-by-category`
(`GROUP BY PRODUCTLINE ORDER BY total_sales DESC`). -/
structure CategoryRow where
  category : String
  total_sales : Rat
  order_count : Nat
  avg_order_value : Rat
  total_quantity : Int
deriving DecidableEq

/-- Endpoint `/api/sales-by-category`: per product line over active records,
`SUM(SALES)`, `COUNT(*)`, `AVG(SALES)`, `SUM(QUANTITYORDERED)`,
ordered by total sales descending (ties ascending by category — the
grouping runs over the `idx_productline` index). -/
def salesByCategoryRows (rs : List SaleRecord) : List CategoryRow :=
  let act := activeRecords rs
  ((groupKeys (·.productLine) String.data act).map (fun k =>
    let g := groupOf (·.productLine) k act
    { category := k
      total_sales := sumSales g
      order_count := g.length
      avg_order_value := avgSales g
      total_quantity := sumQuantity g })).insertionSort
    (rankRel (·.total_sales) (·.category.data))

/-- One row of `/api/sales-by-country`
(`GROUP BY COUNTRY ORDER BY total_sales DESC`). -/
structure CountryRow where
  country : String
  total_sales : Rat
  order_count : Nat
  avg_order_value : Rat
  unique_orders : Nat
deriving DecidableEq

/-- Endpoint `/api/sales-by-country`: per country over active records, ordered by
total sales descending (ties ascending by country — the grouping runs
over the `idx_country` index). -/
def salesByCountryRows (rs : List SaleRecord) : List CountryRow :=
  let act := activeRecords rs
  ((groupKeys (·.country) String.data act).map (fun k =>
    let g := groupOf (·.country) k act
    { country := k
      total_sales := sumSales g
      order_count := g.length
      avg_order_value := avgSales g
      unique_orders := distinctOrders g })).insertionSort
    (rankRel (·.total_sales) (·.country.data))

/-- One row of `/api/top-customers`; the grouping value is labelled
`customer` whichever source column it came from. -/
structure CustomerRow where
  customer : String
  total_sales : Rat
  total_orders : Nat
  avg_order_value : Rat
  last_order_date : OrderDate
deriving DecidableEq

/-- The row built for one customer group `g` (the matching active record
lines): `SUM(SALES)`, `COUNT(DISTINCT ORDERNUMBER)`, `AVG(SALES)`,
`MAX(ORDERDATE)`. -/
def customerRowFor (k : String) (g : List SaleRecord) : CustomerRow :=
  { customer := k
    total_sales := sumSales g
    total_orders := distinctOrders g
    avg_order_value := avgSales g
    last_order_date := lastOrderDate g }

/-- Endpoint `/api/top-customers`, CUSTOMERNAME branch: group active records by
CUSTOMERNAME, order by total sales descending.  There is no index on
CUSTOMERNAME, and tied rows come out of the engine in descending
customer order; the `OrderDual` key fixes that tie order. -/
def topCustomersByNameRows (rs : List SaleRecord) : List CustomerRow :=
  let act := activeRecords rs
  ((groupKeys (·.customerName) String.data act).map (fun k =>
    customerRowFor k (groupOf (·.customerName) k act))).insertionSort
    (rankRel (·.total_sales) (fun row => OrderDual.toDual row.customer.data))

/-- Endpoint `/api/top-customers`, COUNTRY fallback branch: group active records by
COUNTRY (labelled `customer`), order by total sales descending, ties
ascending by country (the grouping runs over the `idx_country` index). -/
def topCustomersByCountryRows (rs : List SaleRecord) : List CustomerRow :=
  let act := activeRecords rs
  ((groupKeys (·.country) String.data act).map (fun k =>
    customerRowFor k (groupOf (·.country) k act))).insertionSort
    (rankRel (·.total_sales) (·.customer.data))

/-- The full ranked customer list before `LIMIT`, dispatching on whether
the snapshot schema has a CUSTOMERNAME column (the `PRAGMA table_info` check of the code). -/
def topCustomersRows (hasCustomerName : Bool) (rs : List SaleRecord) :
    List CustomerRow :=
  if hasCustomerName then topCustomersByNameRows rs
  else topCustomersByCountryRows rs

/-- SQLite `LIMIT n`: `n` rows for `n >= 0`; a negative `n` means no
upper bound, so the whole list is returned. -/
def sqlLimit {ρ : Type} (n : Int) (l : List ρ) : List ρ :=
  if n < 0 then l else l.take n.toNat

/-- The `/api/top-customers` response body: the limited rows, the
requested limit, and `results_count = len(results)`. -/
structure TopCustomersResult where
  data : List CustomerRow
  limit_requested : Int
  results_count : Nat
deriving DecidableEq

/-- Endpoint `/api/top-customers` with its `limit` query parameter (default 10 is
applied by the caller; the SQL receives the integer unchecked). -/
def topCustomers (hasCustomerName : Bool) (rs : List SaleRecord)
    (limit : Int) : TopCustomersResult :=
  let res := sqlLimit limit (topCustomersRows hasCustomerName rs)
  { data := res, limit_requested := limit, results_count := res.length }

/-- One row of `/api/sales-over-time`; the selected columns differ per
period, matching the four SQL branches. -/
inductive TimeRow where
  | daily (date : OrderDate) (total_sales : Rat) (order_count : Nat)
  | monthly (year month : Int) (total_sales : Rat) (order_count : Nat)
  | quarterly (year quarter : Int) (total_sales : Rat) (order_count : Nat)
  | yearly (year : Int) (total_sales : Rat) (order_count : Nat)
deriving DecidableEq

/-- SQL `GROUP BY DATE(ORDERDATE) ORDER BY date` over active records. -/
def dailyRows (rs : List SaleRecord) : List TimeRow :=
  let act := activeRecords rs
  (groupKeys (fun r => dateKey r.orderDate) id act).map (fun k =>
    let g := groupOf (fun r => dateKey r.orderDate) k act
    TimeRow.daily ⟨(ofLex k).1, (ofLex (ofLex k).2).1, (ofLex (ofLex k).2).2⟩
      (sumSales g) g.length)

/-- The stored month bucket: `(YEAR_ID, MONTH_ID)` as the queries group. -/
def monthKey (r : SaleRecord) : Lex (Int × Int) :=
  toLex (r.yearId, r.monthId)

/-- The stored quarter bucket: `(YEAR_ID, QTR_ID)`. -/
def qtrKey (r : SaleRecord) : Lex (Int × Int) :=
  toLex (r.yearId, r.qtrId)

/-- SQL `GROUP BY YEAR_ID, MONTH_ID ORDER BY YEAR_ID, MONTH_ID` over active
records. -/
def monthlyRows (rs : List SaleRecord) : List TimeRow :=
  let act := activeRecords rs
  (groupKeys monthKey id act).map (fun k =>
    let g := groupOf monthKey k act
    TimeRow.monthly (ofLex k).1 (ofLex k).2 (sumSales g) g.length)

/-- SQL `GROUP BY YEAR_ID, QTR_ID ORDER BY YEAR_ID, QTR_ID` over active
records. -/
def quarterlyRows (rs : List SaleRecord) : List TimeRow :=
  let act := activeRecords rs
  (groupKeys qtrKey id act).map (fun k =>
    let g := groupOf qtrKey k act
    TimeRow.quarterly (ofLex k).1 (ofLex k).2 (sumSales g) g.length)

/-- SQL `GROUP BY YEAR_ID ORDER BY YEAR_ID` over active records. -/
def yearlyRows (rs : List SaleRecord) : List TimeRow :=
  let act := activeRecords rs
  (groupKeys (·.yearId) id act).map (fun k =>
    let g := groupOf (·.yearId) k act
    TimeRow.yearly k (sumSales g) g.length)

/-- Endpoint `/api/sales-over-time`: the `period` parameter selects the branch;
the final `else` of the code serves both `yearly` and every unrecognised
value. -/
def salesOverTime (period : String) (rs : List SaleRecord) : List TimeRow :=
  if period = "daily" then dailyRows rs
  else if period = "monthly" then monthlyRows rs
  else if period = "quarterly" then quarterlyRows rs
  else yearlyRows rs

/-- The period fields `download_data` (src/data/preprocessing.py) derives
from ORDERDATE when the source CSV lacks the YEAR_ID / MONTH_ID / QTR_ID
columns: the year of the date, its month, and pandas `dt.quarter`, which is
`((month - 1) / 3) + 1` in integer division. -/
def derivedPeriodFields (d : OrderDate) : Int × Int × Int :=
  (d.year, d.month, (d.month - 1) / 3 + 1)

/-- The month bucket recomputed from `order_date` alone, as the Period Bucketer of the spec prescribes. -/
def monthKeyDerived (r : SaleRecord) : Lex (Int × Int) :=
  toLex (r.orderDate.year, r.orderDate.month)

/-- The quarter bucket recomputed from `order_date` alone. -/
def qtrKeyDerived (r : SaleRecord) : Lex (Int × Int) :=
  toLex (r.orderDate.year, (r.orderDate.month - 1) / 3 + 1)

/-- Variant of `monthlyRows` with the bucket derived from `order_date` instead of
the stored fields (the reading the spec gives of the Period Bucketer). -/
def monthlyRowsDerived (rs : List SaleRecord) : List TimeRow :=
  let act := activeRecords rs
  (groupKeys monthKeyDerived id act).map (fun k =>
    let g := groupOf monthKeyDerived k act
    TimeRow.monthly (ofLex k).1 (ofLex k).2 (sumSales g) g.length)

/-- Variant of `quarterlyRows` with the bucket derived from `order_date`. -/
def quarterlyRowsDerived (rs : List SaleRecord) : List TimeRow :=
  let act := activeRecords rs
  (groupKeys qtrKeyDerived id act).map (fun k =>
    let g := groupOf qtrKeyDerived k act
    TimeRow.quarterly (ofLex k).1 (ofLex k).2 (sumSales g) g.length)

/-- Variant of `yearlyRows` with the bucket derived from `order_date`. -/
def yearlyRowsDerived (rs : List SaleRecord) : List TimeRow :=
  let act := activeRecords rs
  (groupKeys (fun r => r.orderDate.year) id act).map (fun k =>
    let g := groupOf (fun r => r.orderDate.year) k act
    TimeRow.yearly k (sumSales g) g.length)

/-- Rounding to two decimal places (SQLite `ROUND(x, 2)` and Python
`round(x, 2)`; the embedded values are all nonnegative, where the two
agree on every value the queries produce). -/
def round2 (q : Rat) : Rat :=
  (((q * 100 + 1 / 2).floor : Int) : Rat) / 100

/-- One row of the `status_distribution` KPI. -/
structure StatusRow where
  status : String
  count : Nat
  percentage : Rat
deriving DecidableEq

/-- The status distribution: `GROUP BY STATUS` over **all** records (no
status filter), each with its count and
`ROUND(COUNT(*) * 100.0 / (SELECT COUNT(*) FROM sales_data), 2)`. -/
def statusDistribution (rs : List SaleRecord) : List StatusRow :=
  (groupKeys (·.status) String.data rs).map (fun s =>
    let c := (groupOf (·.status) s rs).length
    { status := s
      count := c
      percentage := round2 ((c : Rat) * 100 / (rs.length : Rat)) })

/-- SQL `COUNT(DISTINCT ORDERNUMBER)` over the active records (the KPI
`total_orders`). -/
def totalOrdersOf (rs : List SaleRecord) : Nat :=
  distinctOrders (activeRecords rs)

/-- The KPI `avg_order_value` before rounding:
`total_sales / total_orders if total_orders > 0 else 0`. -/
def kpiAvgOrderValue (rs : List SaleRecord) : Rat :=
  if 0 < totalOrdersOf rs then
    sumSales (activeRecords rs) / (totalOrdersOf rs : Rat)
  else 0

/-- The `monthly_sales` CTE of the growth-rate query: per
`(YEAR_ID, MONTH_ID)` total sales over active records, chronologically
ordered. -/
def monthlyTotals (rs : List SaleRecord) : List (Lex (Int × Int) × Rat) :=
  let act := activeRecords rs
  (groupKeys monthKey id act).map (fun k => (k, sumSales (groupOf monthKey k act)))

/-- The KPI `growth_rate` before rounding:
`(MAX(monthly_total) - MIN(monthly_total)) / MIN(monthly_total) * 100`,
then the Python `... or 0`.  Over zero months both aggregates are NULL and
the query yields NULL; a zero minimum makes the SQL division yield NULL
as well; `or 0` maps both to 0.  `Rat` division by zero is 0, so the
direct formula already agrees with the NULL path on a zero minimum. -/
def growthRate (rs : List SaleRecord) : Rat :=
  match (monthlyTotals rs).map (·.2) with
  | [] => 0
  | t :: ts => (ts.foldl max t - ts.foldl min t) / ts.foldl min t * 100

/-- The smallest monthly total (0 when there is no monthly data) — the
spec, `min_monthly_total`. -/
def minMonthlyTotal (rs : List SaleRecord) : Rat :=
  match (monthlyTotals rs).map (·.2) with
  | [] => 0
  | t :: ts => ts.foldl min t

/-- The largest monthly total (0 when there is no monthly data) — the
spec, `max_monthly_total`. -/
def maxMonthlyTotal (rs : List SaleRecord) : Rat :=
  match (monthlyTotals rs).map (·.2) with
  | [] => 0
  | t :: ts => ts.foldl max t

/-- The KPI bundle assembled by `get_kpis`. -/
structure Kpis where
  total_sales : Rat
  total_orders : Nat
  avg_order_value : Rat
  total_customers : Nat
  growth_rate : Rat
  status_distribution : List StatusRow
deriving DecidableEq

/-- Endpoint `/api/kpis`.  `SUM(SALES)` over the active records is NULL when no
active record exists; `round(None, 2)` then raises a `TypeError`, which
the `except` clause of the route turns into an error response — modelled as
`Except.error`. -/
def getKpis (rs : List SaleRecord) : Except String Kpis :=
  let act := activeRecords rs
  let totalSalesOpt : Option Rat :=
    if act.isEmpty then none else some (sumSales act)
  match totalSalesOpt with
  | none => Except.error "TypeError: NoneType has no rounding"
  | some ts =>
    Except.ok
      { total_sales := round2 ts
        total_orders := totalOrdersOf rs
        avg_order_value := round2 (kpiAvgOrderValue rs)
        total_customers := ((rs.map (·.country)).dedup).length
        growth_rate := round2 (growthRate rs)
        status_distribution := statusDistribution rs }

/-- A template record; the concrete datasets below override the fields
they care about.  Its stored period fields agree with its order date. -/
def baseRecord : SaleRecord :=
  { orderNumber := "0"
    quantityOrdered := 1
    priceEach := 10
    sales := 0
    orderDate := ⟨2024, 1, 1⟩
    status := "Shipped"
    qtrId := 1
    monthId := 1
    yearId := 2024
    country := "Usa"
    productLine := "Classic Cars"
    customerName := "Alpha Ltd" }

/-- The three-record dataset of the worked example in the spec: 100 shipped
(Usa, January), 50 cancelled (Usa, January), 200 shipped (France,
February), all in 2024. -/
def specExample : List SaleRecord :=
  [ { baseRecord with
      orderNumber := "1"
      sales := 100
      orderDate := ⟨2024, 1, 15⟩ }
  , { baseRecord with
      orderNumber := "2"
      sales := 50
      orderDate := ⟨2024, 1, 20⟩
      status := "Cancelled" }
  , { baseRecord with
      orderNumber := "3"
      sales := 200
      orderDate := ⟨2024, 2, 10⟩
      monthId := 2
      country := "France"
      customerName := "Beta Sarl" } ]

/-- Three distinct customers with identical total sales: a pure tie for
the ranking. -/
def demoTies : List SaleRecord :=
  [ { baseRecord with
      orderNumber := "11"
      sales := 100
      customerName := "Alice" }
  , { baseRecord with
      orderNumber := "12"
      sales := 100
      customerName := "Mike" }
  , { baseRecord with
      orderNumber := "13"
      sales := 100
      customerName := "Zed" } ]

/-- A one-record snapshot. -/
def demoSolo : List SaleRecord :=
  [ { baseRecord with
      orderNumber := "21"
      sales := 42 } ]

/-- A record whose stored MONTH_ID/QTR_ID disagree with its order date
(January date, stored month 5 and quarter 2) — possible because the
ingestion trusts period columns already present in the source. -/
def badPeriodRecord : SaleRecord :=
  { baseRecord with
    orderNumber := "31"
    sales := 120
    orderDate := ⟨2024, 1, 15⟩
    monthId := 5
    qtrId := 2 }

/-- One customer, one order with two lines, both of zero sales amount. -/
def demoZeroSales : List SaleRecord :=
  [ { baseRecord with
      orderNumber := "7"
      sales := 0
      customerName := "Acme" }
  , { baseRecord with
      orderNumber := "7"
      sales := 0
      orderDate := ⟨2024, 1, 2⟩
      customerName := "Acme" } ]

/-- One order with two lines of sales 100 and 50: a group whose per-line
mean (75) differs from sales per distinct order (150). -/
def multiLineGroup : List SaleRecord :=
  [ { baseRecord with
      orderNumber := "7"
      sales := 100
      customerName := "Acme" }
  , { baseRecord with
      orderNumber := "7"
      sales := 50
      orderDate := ⟨2024, 1, 2⟩
      customerName := "Acme" } ]

set_option maxRecDepth 8000

/-- Claim C1.  On a snapshot with zero records every aggregation operation
returns an empty sequence, as claimed — but `get_kpis` does not return a
zero-valued KPI bundle: `SUM(SALES)` over zero rows is NULL, and
`round(None, 2)` raises, so the kpis operation fails with an error
response instead.  This theorem evaluates the code at the failing input:
all aggregations are empty, and `getKpis` yields no KPI bundle. -/
theorem emptySnapshot_aggregations_empty_but_kpis_fails :
    salesOverTime "daily" [] = []
    ∧ salesOverTime "monthly" [] = []
    ∧ salesOverTime "quarterly" [] = []
    ∧ salesOverTime "yearly" [] = []
    ∧ salesByCategoryRows [] = []
    ∧ salesByCountryRows [] = []
    ∧ statusDistribution [] = []
    ∧ (∀ hasCN : Bool, ∀ limit : Int, (topCustomers hasCN [] limit).data = [])
    ∧ (getKpis []).toOption = none := by
  refine ⟨rfl, rfl, rfl, rfl, rfl, rfl, rfl, ?_, ?_⟩
  · intro hasCN limit
    cases hasCN <;>
      simp [topCustomers, topCustomersRows, topCustomersByNameRows,
        topCustomersByCountryRows, activeRecords, groupKeys, sqlLimit]
  · norm_num [getKpis, activeRecords, Except.toOption]

/-- Claim C2, counterexample.  An unrecognised granularity value
(here "weekly") does not fall back to the month grouping: on the
example dataset of the spec it produces the single yearly bucket, not the two monthly
buckets. -/
theorem unknownPeriod_not_month_fallback :
    salesOverTime "weekly" specExample = [TimeRow.yearly 2024 300 2]
    ∧ salesOverTime "monthly" specExample
        = [TimeRow.monthly 2024 1 100 1, TimeRow.monthly 2024 2 200 1]
    ∧ salesOverTime "weekly" specExample ≠ salesOverTime "monthly" specExample := by
  refine ⟨?_, ?_, ?_⟩
  · norm_num +decide [salesOverTime, yearlyRows, activeRecords, groupKeys, groupOf,
      specExample, baseRecord, sumSales, keyOrd, List.dedup_cons_of_mem,
      List.dedup_cons_of_not_mem]
  · norm_num +decide [salesOverTime, monthlyRows, monthKey, activeRecords, groupKeys,
      groupOf, specExample, baseRecord, sumSales, keyOrd, List.dedup_cons_of_mem,
      List.dedup_cons_of_not_mem]
  · norm_num +decide [salesOverTime, yearlyRows, monthlyRows, monthKey, activeRecords,
      groupKeys, groupOf, specExample, baseRecord, sumSales, keyOrd,
      List.dedup_cons_of_mem, List.dedup_cons_of_not_mem]

/-- Claim C2, amended.  Every granularity value other than the three
recognised ones (`daily`, `monthly`, `quarterly`) — including every
unknown value — is served by the final `else` branch, i.e. falls back to
the `year` granularity (grouping by YEAR_ID alone), not to `month`. -/
theorem unknownPeriod_falls_back_to_yearly (period : String)
    (rs : List SaleRecord) (hd : period ≠ "daily") (hm : period ≠ "monthly")
    (hq : period ≠ "quarterly") :
    salesOverTime period rs = salesOverTime "yearly" rs := by
  simp [salesOverTime, hd, hm, hq]

/-- Witness for the amended C2 at the concrete granularity "weekly". -/
theorem unknownPeriod_falls_back_to_yearly_witness :
    salesOverTime "weekly" specExample = salesOverTime "yearly" specExample :=
  unknownPeriod_falls_back_to_yearly "weekly" specExample (by decide) (by decide)
    (by decide)

/-- Rounding a whole number to two decimals keeps it unchanged;
instance of the final `round(growth_rate, 2)` step on the example. -/
theorem round2_hundred : round2 100 = 100 := by
  unfold round2
  have h1 : ((100 : ℚ) * 100 + 1 / 2) = 20001 / 2 := by norm_num
  rw [h1]
  have h2 : ((20001 : ℚ) / 2).floor = 10000 := by
    rw [Rat.floor_def', ← Rat.floor_def]
    refine Int.floor_eq_iff.mpr ⟨by norm_num, by norm_num⟩
  rw [h2]
  norm_num

/-- Claim C3.  The growth rate equals
`(max_monthly_total - min_monthly_total) / min_monthly_total * 100` over
the per-(year, month) totals of active records, is 0 when there is no
monthly data or the minimum monthly total is 0, and on the
three-record example of the spec it equals 100, also as the rounded KPI field. -/
theorem growthRate_formula_and_example :
    (∀ rs : List SaleRecord,
      growthRate rs =
        if monthlyTotals rs = [] ∨ minMonthlyTotal rs = 0 then 0
        else (maxMonthlyTotal rs - minMonthlyTotal rs) / minMonthlyTotal rs * 100)
    ∧ growthRate specExample = 100
    ∧ (getKpis specExample).toOption.map Kpis.growth_rate = some 100 := by
  refine ⟨?_, ?_, ?_⟩
  · intro rs
    unfold growthRate minMonthlyTotal maxMonthlyTotal
    cases h : (monthlyTotals rs).map (·.2) with
    | nil =>
      have : monthlyTotals rs = [] := List.map_eq_nil_iff.mp h
      simp [this]
    | cons t ts =>
      have hne : ¬ monthlyTotals rs = [] := by
        intro hnil
        rw [hnil] at h
        exact List.cons_ne_nil t ts h.symm
      by_cases hz : ts.foldl min t = 0
      · simp [hne, hz]
      · simp [hne, hz]
  · norm_num +decide [growthRate, monthlyTotals, monthKey, activeRecords, groupKeys,
      groupOf, specExample, baseRecord, sumSales, keyOrd, List.dedup_cons_of_mem,
      List.dedup_cons_of_not_mem]
  · norm_num +decide [getKpis, growthRate, round2_hundred, monthlyTotals, monthKey,
      activeRecords, groupKeys, groupOf, specExample, baseRecord, sumSales, keyOrd,
      Except.toOption, List.dedup_cons_of_mem, List.dedup_cons_of_not_mem]

/-- Rows produced by sorting with `rankRel` are descending in the metric,
with ties resolved by the key order the relation carries. -/
theorem pairwise_of_insertionSort_rankRel {ρ κ : Type} [LinearOrder κ]
    (m : ρ → Rat) (k : ρ → κ) (l : List ρ) :
    (l.insertionSort (rankRel m k)).Pairwise
      (fun a b => m b ≤ m a ∧ (m a = m b → k a ≤ k b)) := by
  refine (List.sorted_insertionSort (rankRel m k) l).imp ?_
  intro a b hab
  rcases hab with h | ⟨h1, h2⟩
  · exact ⟨h.le, fun he => absurd (he ▸ h) (lt_irrefl _)⟩
  · exact ⟨le_of_eq h1.symm, fun _ => h2⟩

/-- Claim C4, counterexample.  Three customers tied at total sales 100
come out of top-customers as Zed, Mike, Alice — descending by customer
key — so tied rows do not appear in ascending order of their group key. -/
theorem topCustomers_ties_not_ascending :
    topCustomersRows true demoTies =
      [ { customer := "Zed", total_sales := 100, total_orders := 1,
          avg_order_value := 100, last_order_date := ⟨2024, 1, 1⟩ }
      , { customer := "Mike", total_sales := 100, total_orders := 1,
          avg_order_value := 100, last_order_date := ⟨2024, 1, 1⟩ }
      , { customer := "Alice", total_sales := 100, total_orders := 1,
          avg_order_value := 100, last_order_date := ⟨2024, 1, 1⟩ } ]
    ∧ ¬ ((topCustomersRows true demoTies).Pairwise (fun a b =>
          a.total_sales = b.total_sales → a.customer ≤ b.customer)) := by
  have h : topCustomersRows true demoTies =
      [ { customer := "Zed", total_sales := 100, total_orders := 1,
          avg_order_value := 100, last_order_date := ⟨2024, 1, 1⟩ }
      , { customer := "Mike", total_sales := 100, total_orders := 1,
          avg_order_value := 100, last_order_date := ⟨2024, 1, 1⟩ }
      , { customer := "Alice", total_sales := 100, total_orders := 1,
          avg_order_value := 100, last_order_date := ⟨2024, 1, 1⟩ } ] := by
    norm_num +decide [topCustomersRows, topCustomersByNameRows, activeRecords,
      groupKeys, groupOf, demoTies, baseRecord, sumSales, avgSales, distinctOrders,
      lastOrderDate, laterDate, dateKey, customerRowFor, keyOrd, rankRel,
      List.dedup_cons_of_mem, List.dedup_cons_of_not_mem]
  refine ⟨h, ?_⟩
  rw [h]
  intro hp
  rcases List.pairwise_cons.mp hp with ⟨h1, _⟩
  have hzm : ("Zed" : String) ≤ "Mike" := h1 _ (List.mem_cons_self _ _) rfl
  rw [String.le_iff_toList_le] at hzm
  exact absurd hzm (by decide)

/-- Claim C4, amended.  Every ranking operation emits rows sorted
descending by total_sales and its tie order is deterministic, but the
tie order is not uniformly ascending: sales-by-category,
sales-by-country and the country-fallback top-customers break ties by
ascending group key, while top-customers grouped by customer name breaks
ties by descending customer key. -/
theorem ranking_sorted_desc_with_fixed_tie_orders (rs : List SaleRecord) :
    (salesByCategoryRows rs).Pairwise (fun a b =>
      b.total_sales ≤ a.total_sales
      ∧ (a.total_sales = b.total_sales → a.category ≤ b.category))
    ∧ (salesByCountryRows rs).Pairwise (fun a b =>
      b.total_sales ≤ a.total_sales
      ∧ (a.total_sales = b.total_sales → a.country ≤ b.country))
    ∧ (topCustomersByCountryRows rs).Pairwise (fun a b =>
      b.total_sales ≤ a.total_sales
      ∧ (a.total_sales = b.total_sales → a.customer ≤ b.customer))
    ∧ (topCustomersByNameRows rs).Pairwise (fun a b =>
      b.total_sales ≤ a.total_sales
      ∧ (a.total_sales = b.total_sales → b.customer ≤ a.customer)) := by
  refine ⟨?_, ?_, ?_, ?_⟩
  · refine (pairwise_of_insertionSort_rankRel
      (fun row : CategoryRow => row.total_sales)
      (fun row : CategoryRow => row.category.data) _).imp ?_
    intro a b hab
    exact ⟨hab.1, fun he => String.le_iff_toList_le.mpr (hab.2 he)⟩
  · refine (pairwise_of_insertionSort_rankRel
      (fun row : CountryRow => row.total_sales)
      (fun row : CountryRow => row.country.data) _).imp ?_
    intro a b hab
    exact ⟨hab.1, fun he => String.le_iff_toList_le.mpr (hab.2 he)⟩
  · refine (pairwise_of_insertionSort_rankRel
      (fun row : CustomerRow => row.total_sales)
      (fun row : CustomerRow => row.customer.data) _).imp ?_
    intro a b hab
    exact ⟨hab.1, fun he => String.le_iff_toList_le.mpr (hab.2 he)⟩
  · refine (pairwise_of_insertionSort_rankRel
      (fun row : CustomerRow => row.total_sales)
      (fun row : CustomerRow => OrderDual.toDual row.customer.data) _).imp ?_
    intro a b hab
    refine ⟨hab.1, fun he => String.le_iff_toList_le.mpr ?_⟩
    exact OrderDual.toDual_le_toDual.mp (hab.2 he)

/-- Claim C5, counterexample.  A negative limit does not yield an empty
sequence: SQLite treats a negative `LIMIT` as "no upper bound", so
`limit = -1` on a one-record snapshot returns the full row list. -/
theorem negativeLimit_returns_all_rows :
    ((-1 : Int) ≤ 0)
    ∧ (topCustomers true demoSolo (-1)).data ≠ []
    ∧ (topCustomers true demoSolo (-1)).results_count = 1 := by
  have h : topCustomersRows true demoSolo =
      [ { customer := "Alpha Ltd", total_sales := 42, total_orders := 1,
          avg_order_value := 42, last_order_date := ⟨2024, 1, 1⟩ } ] := by
    norm_num +decide [topCustomersRows, topCustomersByNameRows, activeRecords,
      groupKeys, groupOf, demoSolo, baseRecord, sumSales, avgSales, distinctOrders,
      lastOrderDate, laterDate, dateKey, customerRowFor, keyOrd, rankRel,
      List.dedup_cons_of_mem, List.dedup_cons_of_not_mem]
  refine ⟨by norm_num, ?_, ?_⟩
  · simp [topCustomers, sqlLimit, h]
  · simp [topCustomers, sqlLimit, h]

/-- Claim C5, amended.  `limit = 0` yields an empty sequence; a negative
limit returns all groups (the unbounded LIMIT of SQLite), as does any limit at
least the number of groups; `results_count` always equals the number of
rows actually returned. -/
theorem topCustomers_limit_semantics (hasCN : Bool) (rs : List SaleRecord)
    (n : Int) :
    (n = 0 → (topCustomers hasCN rs n).data = [])
    ∧ (n < 0 → (topCustomers hasCN rs n).data = topCustomersRows hasCN rs)
    ∧ (((topCustomersRows hasCN rs).length : Int) ≤ n →
        (topCustomers hasCN rs n).data = topCustomersRows hasCN rs)
    ∧ (topCustomers hasCN rs n).results_count
        = (topCustomers hasCN rs n).data.length := by
  refine ⟨?_, ?_, ?_, rfl⟩
  · intro h
    subst h
    simp [topCustomers, sqlLimit]
  · intro h
    simp [topCustomers, sqlLimit, h]
  · intro h
    have hn : ¬ n < 0 := by omega
    have hlen : (topCustomersRows hasCN rs).length ≤ n.toNat := by omega
    simp [topCustomers, sqlLimit, hn, List.take_of_length_le hlen]

/-- Witness for the amended C5 at limits 0, -1, 5 and 2 on the
one-record snapshot. -/
theorem topCustomers_limit_semantics_witness :
    (topCustomers true demoSolo 0).data = []
    ∧ (topCustomers true demoSolo (-1)).data = topCustomersRows true demoSolo
    ∧ (topCustomers true demoSolo 5).data = topCustomersRows true demoSolo
    ∧ (topCustomers true demoSolo 2).results_count
        = (topCustomers true demoSolo 2).data.length := by
  refine ⟨(topCustomers_limit_semantics true demoSolo 0).1 rfl,
    (topCustomers_limit_semantics true demoSolo (-1)).2.1 (by norm_num),
    (topCustomers_limit_semantics true demoSolo 5).2.2.1 ?_,
    (topCustomers_limit_semantics true demoSolo 2).2.2.2⟩
  have h : (topCustomersRows true demoSolo).length = 1 := by
    norm_num +decide [topCustomersRows, topCustomersByNameRows, activeRecords,
      groupKeys, groupOf, demoSolo, baseRecord, sumSales, avgSales, distinctOrders,
      lastOrderDate, laterDate, dateKey, customerRowFor, keyOrd, rankRel,
      List.dedup_cons_of_mem, List.dedup_cons_of_not_mem]
  rw [h]
  norm_num

/-- Claim C6, counterexample.  The time-grouped operations bucket by the
stored YEAR_ID/MONTH_ID/QTR_ID columns, which the ingestion trusts
unchecked when the source supplies them; a record whose stored month (5)
and quarter (2) disagree with its January order date lands in different
buckets than the order-date derivation, so the partition is not a pure
function of `order_date`. -/
theorem storedFields_bucketing_not_pure_in_orderDate :
    monthlyRows [badPeriodRecord] = [TimeRow.monthly 2024 5 120 1]
    ∧ monthlyRowsDerived [badPeriodRecord] = [TimeRow.monthly 2024 1 120 1]
    ∧ monthlyRows [badPeriodRecord] ≠ monthlyRowsDerived [badPeriodRecord]
    ∧ quarterlyRows [badPeriodRecord] ≠ quarterlyRowsDerived [badPeriodRecord] := by
  refine ⟨?_, ?_, ?_, ?_⟩ <;>
    norm_num +decide [monthlyRows, monthlyRowsDerived, quarterlyRows,
      quarterlyRowsDerived, monthKey, monthKeyDerived, qtrKey, qtrKeyDerived,
      activeRecords, groupKeys, groupOf, badPeriodRecord, baseRecord, sumSales,
      keyOrd, List.dedup_cons_of_mem, List.dedup_cons_of_not_mem]

/-- Claim C6, amended.  Bucketing uses the stored period fields; it
coincides with deriving year/month/quarter from `order_date` exactly for
records whose stored fields equal that derivation — which is what the
ingestion produces when the source lacks the period columns
(`derivedPeriodFields`, from `download_data`). -/
theorem bucketing_agrees_when_fields_derived (rs : List SaleRecord)
    (h : ∀ r ∈ rs, (r.yearId, r.monthId, r.qtrId) = derivedPeriodFields r.orderDate) :
    monthlyRows rs = monthlyRowsDerived rs
    ∧ quarterlyRows rs = quarterlyRowsDerived rs
    ∧ yearlyRows rs = yearlyRowsDerived rs := by
  have hact : ∀ r ∈ activeRecords rs,
      (r.yearId, r.monthId, r.qtrId) = derivedPeriodFields r.orderDate :=
    fun r hr => h r (List.mem_of_mem_filter hr)
  have hy : ∀ r ∈ activeRecords rs, r.yearId = r.orderDate.year := by
    intro r hr
    have := hact r hr
    simp [derivedPeriodFields, Prod.ext_iff] at this
    exact this.1
  have hm : ∀ r ∈ activeRecords rs, r.monthId = r.orderDate.month := by
    intro r hr
    have := hact r hr
    simp [derivedPeriodFields, Prod.ext_iff] at this
    exact this.2.1
  have hq : ∀ r ∈ activeRecords rs,
      r.qtrId = (r.orderDate.month - 1) / 3 + 1 := by
    intro r hr
    have := hact r hr
    simp [derivedPeriodFields, Prod.ext_iff] at this
    exact this.2.2
  refine ⟨?_, ?_, ?_⟩
  · have hkeys : (activeRecords rs).map monthKey
        = (activeRecords rs).map monthKeyDerived :=
      List.map_congr_left (fun r hr => by
        unfold monthKey monthKeyDerived
        rw [hy r hr, hm r hr])
    have hgo : ∀ kk, groupOf monthKey kk (activeRecords rs)
        = groupOf monthKeyDerived kk (activeRecords rs) := by
      intro kk
      unfold groupOf
      refine List.filter_congr ?_
      intro r hr
      simp [monthKey, monthKeyDerived, hy r hr, hm r hr]
    simp only [monthlyRows, monthlyRowsDerived, groupKeys, hkeys]
    refine List.map_congr_left ?_
    intro kk _
    rw [hgo kk]
  · have hkeys : (activeRecords rs).map qtrKey
        = (activeRecords rs).map qtrKeyDerived :=
      List.map_congr_left (fun r hr => by
        unfold qtrKey qtrKeyDerived
        rw [hy r hr, hq r hr])
    have hgo : ∀ kk, groupOf qtrKey kk (activeRecords rs)
        = groupOf qtrKeyDerived kk (activeRecords rs) := by
      intro kk
      unfold groupOf
      refine List.filter_congr ?_
      intro r hr
      simp [qtrKey, qtrKeyDerived, hy r hr, hq r hr]
    simp only [quarterlyRows, quarterlyRowsDerived, groupKeys, hkeys]
    refine List.map_congr_left ?_
    intro kk _
    rw [hgo kk]
  · have hkeys : (activeRecords rs).map (fun r => r.yearId)
        = (activeRecords rs).map (fun r => r.orderDate.year) :=
      List.map_congr_left (fun r hr => hy r hr)
    have hgo : ∀ kk, groupOf (fun r => r.yearId) kk (activeRecords rs)
        = groupOf (fun r => r.orderDate.year) kk (activeRecords rs) := by
      intro kk
      unfold groupOf
      refine List.filter_congr ?_
      intro r hr
      simp [hy r hr]
    simp only [yearlyRows, yearlyRowsDerived, groupKeys, hkeys]
    refine List.map_congr_left ?_
    intro kk _
    rw [hgo kk]

/-- Witness for the amended C6 on the example dataset of the spec, whose
stored period fields agree with the order-date derivation. -/
theorem bucketing_agrees_when_fields_derived_witness :
    monthlyRows specExample = monthlyRowsDerived specExample
    ∧ quarterlyRows specExample = quarterlyRowsDerived specExample
    ∧ yearlyRows specExample = yearlyRowsDerived specExample :=
  bucketing_agrees_when_fields_derived specExample (by decide)

/-- The size of a status group is the number of occurrences of that
status value among the records. -/
theorem groupOf_status_length (rs : List SaleRecord) (s : String) :
    (groupOf (fun r => r.status) s rs).length
      = (rs.map (fun r => r.status)).count s := by
  unfold groupOf
  rw [← List.countP_eq_length_filter, List.count_eq_countP, List.countP_map]
  refine List.countP_congr ?_
  intro r _
  simp [Function.comp, Bool.beq_eq_decide_eq]

/-- Claim C7.  The status distribution has one entry per distinct status
over all records (no status filtering), each percentage is computed
independently as `round(count * 100 / total, 2)`, and the counts sum
exactly to the total record count. -/
theorem statusDistribution_partition (rs : List SaleRecord) :
    ((statusDistribution rs).map (fun row => row.count)).sum = rs.length
    ∧ (statusDistribution rs).map (fun row => row.percentage)
        = (statusDistribution rs).map
            (fun row => round2 ((row.count : Rat) * 100 / (rs.length : Rat)))
    ∧ ((statusDistribution rs).map (fun row => row.status)).Nodup
    ∧ (∀ s : String,
        s ∈ (statusDistribution rs).map (fun row => row.status)
          ↔ s ∈ rs.map (fun r => r.status)) := by
  have hperm : List.Perm
      (((rs.map (fun r => r.status)).dedup).insertionSort (keyOrd String.data))
      ((rs.map (fun r => r.status)).dedup) :=
    List.perm_insertionSort _ _
  have hmapstat : (statusDistribution rs).map (fun row => row.status)
      = ((rs.map (fun r => r.status)).dedup).insertionSort (keyOrd String.data) := by
    simp only [statusDistribution, groupKeys, List.map_map]
    exact List.map_id _
  refine ⟨?_, ?_, ?_, ?_⟩
  · have e1 : (statusDistribution rs).map (fun row => row.count)
        = (((rs.map (fun r => r.status)).dedup).insertionSort
            (keyOrd String.data)).map
          (fun s => (groupOf (fun r => r.status) s rs).length) := by
      simp only [statusDistribution, groupKeys, List.map_map]
      rfl
    have e2 : List.Perm
        ((((rs.map (fun r => r.status)).dedup).insertionSort
          (keyOrd String.data)).map
          (fun s => (groupOf (fun r => r.status) s rs).length))
        (((rs.map (fun r => r.status)).dedup).map
          (fun s => (groupOf (fun r => r.status) s rs).length)) :=
      hperm.map _
    have e3 : ((rs.map (fun r => r.status)).dedup).map
          (fun s => (groupOf (fun r => r.status) s rs).length)
        = ((rs.map (fun r => r.status)).dedup).map
          (fun s => (rs.map (fun r => r.status)).count s) :=
      List.map_congr_left (fun s _ => groupOf_status_length rs s)
    rw [e1, e2.sum_eq, e3, List.sum_map_count_dedup_eq_length, List.length_map]
  · simp only [statusDistribution, groupKeys, List.map_map]
    rfl
  · rw [hmapstat]
    exact hperm.nodup_iff.mpr (List.nodup_dedup _)
  · intro s
    rw [hmapstat, hperm.mem_iff, List.mem_dedup]

/-- A key of `groupKeys` always has at least one matching record. -/
theorem groupOf_groupKeys_length_pos {κ κ₀ : Type} [DecidableEq κ]
    [LinearOrder κ₀] (key : SaleRecord → κ) (ord : κ → κ₀) (k : κ)
    (rs : List SaleRecord) (hk : k ∈ groupKeys key ord rs) :
    0 < (groupOf key k rs).length := by
  unfold groupKeys at hk
  rw [(List.perm_insertionSort _ _).mem_iff, List.mem_dedup] at hk
  obtain ⟨r, hr, hkey⟩ := List.mem_map.mp hk
  have : r ∈ groupOf key k rs := by
    unfold groupOf
    rw [List.mem_filter]
    exact ⟨hr, by simp [hkey]⟩
  exact List.length_pos_of_mem this

/-- Claim C8.  For every group emitted by sales-by-category or
sales-by-country, `avg_order_value = total_sales / order_count` with a
positive `order_count` (a group only exists with at least one matching
record, so `AVG` never divides by zero); the KPI `avg_order_value` is
`total_sales / total_orders` when `total_orders > 0` and 0 when
`total_orders = 0`.  No division fault is possible. -/
theorem avgOrderValue_safe (rs : List SaleRecord) :
    ((salesByCategoryRows rs).all (fun row =>
        decide (0 < row.order_count)
        && decide (row.avg_order_value
              = row.total_sales / (row.order_count : Rat)))) = true
    ∧ ((salesByCountryRows rs).all (fun row =>
        decide (0 < row.order_count)
        && decide (row.avg_order_value
              = row.total_sales / (row.order_count : Rat)))) = true
    ∧ (totalOrdersOf rs = 0 → kpiAvgOrderValue rs = 0)
    ∧ (0 < totalOrdersOf rs →
        kpiAvgOrderValue rs
          = sumSales (activeRecords rs) / (totalOrdersOf rs : Rat)) := by
  refine ⟨?_, ?_, ?_, ?_⟩
  · rw [List.all_eq_true]
    intro row hrow
    unfold salesByCategoryRows at hrow
    rw [(List.perm_insertionSort _ _).mem_iff] at hrow
    obtain ⟨k, hk, hrow_eq⟩ := List.mem_map.mp hrow
    subst hrow_eq
    rw [Bool.and_eq_true, decide_eq_true_eq, decide_eq_true_eq]
    exact ⟨groupOf_groupKeys_length_pos _ String.data k _ hk, rfl⟩
  · rw [List.all_eq_true]
    intro row hrow
    unfold salesByCountryRows at hrow
    rw [(List.perm_insertionSort _ _).mem_iff] at hrow
    obtain ⟨k, hk, hrow_eq⟩ := List.mem_map.mp hrow
    subst hrow_eq
    rw [Bool.and_eq_true, decide_eq_true_eq, decide_eq_true_eq]
    exact ⟨groupOf_groupKeys_length_pos _ String.data k _ hk, rfl⟩
  · intro h
    simp [kpiAvgOrderValue, h]
  · intro h
    simp [kpiAvgOrderValue, h]

/-- Witness for the KPI clauses of C8: the empty snapshot exercises the
zero-order branch, the spec example the positive branch. -/
theorem avgOrderValue_safe_witness :
    kpiAvgOrderValue [] = 0
    ∧ kpiAvgOrderValue specExample
        = sumSales (activeRecords specExample) / (totalOrdersOf specExample : Rat) :=
  ⟨(avgOrderValue_safe []).2.2.1 (by decide),
   (avgOrderValue_safe specExample).2.2.2 (by decide)⟩

/-- Claim C9.  Top-customers groups by CUSTOMERNAME when the snapshot
schema has that column and by COUNTRY otherwise; in both cases the rows
carry the grouping value in the same `customer` field, so every emitted
customer value is drawn from the corresponding source column and the row
shape does not reveal which column was used. -/
theorem customerKey_fallback (rs : List SaleRecord) :
    topCustomersRows true rs = topCustomersByNameRows rs
    ∧ topCustomersRows false rs = topCustomersByCountryRows rs
    ∧ ((topCustomersByNameRows rs).all (fun row =>
        decide (row.customer ∈ (activeRecords rs).map (fun r => r.customerName))))
        = true
    ∧ ((topCustomersByCountryRows rs).all (fun row =>
        decide (row.customer ∈ (activeRecords rs).map (fun r => r.country))))
        = true := by
  refine ⟨rfl, rfl, ?_, ?_⟩
  · rw [List.all_eq_true]
    intro row hrow
    unfold topCustomersByNameRows at hrow
    rw [(List.perm_insertionSort _ _).mem_iff] at hrow
    obtain ⟨k, hk, hrow_eq⟩ := List.mem_map.mp hrow
    subst hrow_eq
    rw [decide_eq_true_eq]
    unfold groupKeys at hk
    rw [(List.perm_insertionSort _ _).mem_iff, List.mem_dedup] at hk
    exact hk
  · rw [List.all_eq_true]
    intro row hrow
    unfold topCustomersByCountryRows at hrow
    rw [(List.perm_insertionSort _ _).mem_iff] at hrow
    obtain ⟨k, hk, hrow_eq⟩ := List.mem_map.mp hrow
    subst hrow_eq
    rw [decide_eq_true_eq]
    unfold groupKeys at hk
    rw [(List.perm_insertionSort _ _).mem_iff, List.mem_dedup] at hk
    exact hk

/-- Claim C10, counterexample.  A customer whose single order has two
lines of zero sales has `avg_order_value * total_orders = 0 =
total_sales`, so a multi-line order does not force the two to differ. -/
theorem zeroSales_multiline_no_difference :
    distinctOrders (activeRecords demoZeroSales) = 1
    ∧ (activeRecords demoZeroSales).length = 2
    ∧ topCustomersRows true demoZeroSales =
        [ { customer := "Acme", total_sales := 0, total_orders := 1,
            avg_order_value := 0, last_order_date := ⟨2024, 1, 2⟩ } ]
    ∧ ((topCustomersRows true demoZeroSales).all (fun row =>
        decide (row.avg_order_value * (row.total_orders : Rat)
          = row.total_sales))) = true := by
  have h3 : topCustomersRows true demoZeroSales =
      [ { customer := "Acme", total_sales := 0, total_orders := 1,
          avg_order_value := 0, last_order_date := ⟨2024, 1, 2⟩ } ] := by
    norm_num +decide [topCustomersRows, topCustomersByNameRows, activeRecords,
      groupKeys, groupOf, demoZeroSales, baseRecord, sumSales, avgSales,
      distinctOrders, lastOrderDate, laterDate, dateKey, customerRowFor, keyOrd,
      rankRel, List.dedup_cons_of_mem, List.dedup_cons_of_not_mem]
  refine ⟨by decide, by decide, h3, ?_⟩
  rw [h3]
  norm_num

/-- Claim C10, amended.  In every top-customers row, `avg_order_value`
is the per-line mean `total_sales / (number of matching lines)`, not
`total_sales / total_orders`; consequently, whenever a customer has an
order with more than one line **and** a nonzero sales total,
`avg_order_value * total_orders` differs from `total_sales`. -/
theorem topCustomers_avg_is_per_line_mean (k : String) (g : List SaleRecord)
    (hne : g ≠ []) (hs : sumSales g ≠ 0) (hml : distinctOrders g < g.length) :
    (customerRowFor k g).avg_order_value = sumSales g / (g.length : Rat)
    ∧ (customerRowFor k g).avg_order_value
        * ((customerRowFor k g).total_orders : Rat)
        ≠ (customerRowFor k g).total_sales := by
  refine ⟨rfl, ?_⟩
  intro heq
  have hL : ((g.length : Rat)) ≠ 0 := by
    have h0 : g.length ≠ 0 := by
      intro h0
      exact hne (List.length_eq_zero.mp h0)
    exact_mod_cast h0
  have h1 : sumSales g / (g.length : Rat) * ((distinctOrders g : Nat) : Rat)
      = sumSales g := heq
  field_simp at h1
  rcases h1 with h | h
  · exact Nat.ne_of_lt hml h
  · exact hs h

/-- Witness for the amended C10: one order, two lines of 100 and 50;
the per-line mean is 75 while sales per distinct order would be 150. -/
theorem topCustomers_avg_is_per_line_mean_witness :
    (customerRowFor "Acme" multiLineGroup).avg_order_value
        = sumSales multiLineGroup / (multiLineGroup.length : Rat)
    ∧ (customerRowFor "Acme" multiLineGroup).avg_order_value
        * ((customerRowFor "Acme" multiLineGroup).total_orders : Rat)
        ≠ (customerRowFor "Acme" multiLineGroup).total_sales :=
  topCustomers_avg_is_per_line_mean "Acme" multiLineGroup (by decide)
    (by norm_num [sumSales, multiLineGroup, baseRecord]) (by decide)
